import Mathlib

/-
Shallow embedding of github.com/binary4cat/logger (src/logger.go), a thin
wrapper around zap that routes log entries to a stdout sink and/or a
size-rotated file sink, with user hooks.

Modelling conventions:
* `Level` is Go's `int8`-based `Level`; the values used are -1..5, far from
  any overflow, so it is embedded as `Int` with the named constants of
  src/logger.go lines 16-40.
* A concrete writer endpoint is `Writer`: either the lumberjack file writer
  built by `getLogWriter` (carrying the `Options` fields it was built from) or
  `os.Stdout`.  Byte-level I/O is external; we track which writers receive a
  write and, for the raw channel, the exact payload string.
* A Go hook value `func(LogInfo) error` is identified by a `Hook := Nat` tag:
  the claims are about which hook function is invoked, how many times and in
  what order, not about the hook bodies.
* The package-level mutable variables `logger`, `fileWirtor`, `stdWirtor`
  (src/logger.go lines 63-70) become the fields of `LoggerState`; `InitLogger`
  is a state transformer on it.  A nil pointer is `none`.
-/

namespace Logger

/-- Logging priority, src/logger.go line 16 (`type Level int8`). -/
abbrev Level := Int

/-- src/logger.go line 21: `DebugLevel Level = iota - 1`. -/
def DebugLevel : Level := -1

/-- src/logger.go line 23. -/
def InfoLevel : Level := 0

/-- src/logger.go line 26. -/
def WarnLevel : Level := 1

/-- src/logger.go line 29. -/
def ErrorLevel : Level := 2

/-- src/logger.go line 32. -/
def DPanicLevel : Level := 3

/-- src/logger.go line 34. -/
def PanicLevel : Level := 4

/-- src/logger.go line 36. -/
def FatalLevel : Level := 5

/-- Configuration record, src/logger.go lines 42-50.  Go `int` fields become
`Int`. -/
structure Options where
  NotStdout  : Bool
  Level      : Level
  Filename   : String
  MaxSize    : Int
  MaxBackups : Int
  MaxAge     : Int
  Compress   : Bool
deriving DecidableEq

/-- Identity tag for a Go hook function value `func(LogInfo) error`. -/
abbrev Hook := Nat

/-- The record handed to hooks, src/logger.go lines 53-61.  `time.Time` is an
opaque tick (`Nat`). -/
structure LogInfo where
  Level      : Level
  Time       : Nat
  LoggerName : String
  Message    : String
  Stack      : String
  File       : String
  Line       : Int
deriving DecidableEq

/-- zapcore.EntryCaller, as used at src/logger.go lines 128-129. -/
structure Caller where
  File : String
  Line : Int
deriving DecidableEq

/-- zapcore.Entry: the data of one log call as the zap core and the hooks see
it. -/
structure Entry where
  Level      : Level
  Time       : Nat
  LoggerName : String
  Message    : String
  Stack      : String
  Caller     : Caller
deriving DecidableEq

/-- A concrete writer endpoint: the lumberjack file writer built by
`getLogWriter` (src/logger.go lines 155-165), identified by the option fields
it was constructed from, or `os.Stdout`. -/
inductive Writer where
  | file (Filename : String) (MaxSize MaxBackups MaxAge : Int) (Compress : Bool)
  | stdout
deriving DecidableEq

/-- src/logger.go lines 155-165: builds the lumberjack writer from the
options; every `Options` field except `NotStdout` and `Level` is passed
through. -/
def getLogWriter (opt : Options) : Writer :=
  Writer.file opt.Filename opt.MaxSize opt.MaxBackups opt.MaxAge opt.Compress

/-- The zap logger built by `InitLogger`: the cores of the tee (each one a
writer endpoint, all sharing the level enabler `opt.Level`) and the hook
functions registered through `zap.Hooks`. -/
structure Pipeline where
  cores : List Writer
  level : Level
  hooks : List Hook
deriving DecidableEq

/-- The package-level variables of src/logger.go lines 63-70: `logger`,
`fileWirtor`, `stdWirtor`.  `none` is a nil pointer. -/
structure LoggerState where
  logger     : Option Pipeline
  fileWirtor : Option Writer
  stdWirtor  : Option Writer
deriving DecidableEq

/-- The package variables before `init` runs: all three are nil. -/
def emptyState : LoggerState :=
  { logger := none, fileWirtor := none, stdWirtor := none }

/-- Translation of `hooksHandler`, src/logger.go lines 118-135.  go.mod
declares `go 1.19`, so the `range` loop variable `hook` is a single variable
shared by every `resHook` closure created in the loop body; a `resHook` runs
only after `InitLogger` has returned, when that variable holds the final
element of `hooks`.  Each `resHook` is therefore modelled by the hook function
it actually calls — the last element — and the returned slice has one entry
per iteration. -/
def hooksHandler (hooks : List Hook) : List Hook :=
  match hooks.getLast? with
  | none => []
  | some last => hooks.map fun _ => last

/-- The cores of the tee built by `InitLogger`, src/logger.go lines 90-102:
branch 1 (`opt.NotStdout && opt.Filename != ""`) is a single file core; branch
2 (`opt.Filename == "" && !opt.NotStdout`) is a single stdout core; the
residual `else` branch (lines 96-102) tees a stdout core and a file core. -/
def sinkCores (opt : Options) : List Writer :=
  if opt.NotStdout ∧ opt.Filename ≠ "" then
    [getLogWriter opt]
  else if opt.Filename = "" ∧ ¬ opt.NotStdout then
    [Writer.stdout]
  else
    [Writer.stdout, getLogWriter opt]

/-- Translation of `InitLogger`, src/logger.go lines 85-107.  Line 87 stores
`getLogWriter opt` into `fileWirtor` unconditionally, before the branch.  The
branch on lines 90-102 selects the cores (`sinkCores`); the two branches that
build a stdout core (lines 92-95 and 96-102) also store the stdout syncer into
`stdWirtor`, while the file-only branch (lines 90-91) leaves `stdWirtor`
untouched.  Line 105 installs the zap logger with the hooks wrapped by
`hooksHandler`. -/
def InitLogger (opt : Options) (hooks : List Hook) (st : LoggerState) : LoggerState :=
  let pl : Pipeline := { cores := sinkCores opt, level := opt.Level, hooks := hooksHandler hooks }
  if opt.NotStdout ∧ opt.Filename ≠ "" then
    { st with fileWirtor := some (getLogWriter opt), logger := some pl }
  else
    { st with fileWirtor := some (getLogWriter opt), stdWirtor := some Writer.stdout,
              logger := some pl }

/-- The level enabler passed to every core at src/logger.go lines 91, 95,
99-100: zap's `LevelEnabler` for a plain `zapcore.Level` accepts an entry iff
its level is at least the configured one (spec 4.3: `accept(level) =
level ≥ configured minimum`). -/
def accept (min l : Level) : Bool :=
  decide (min ≤ l)

/-- The `LogInfo` that `hooksHandler`'s wrapper builds from a `zapcore.Entry`,
src/logger.go lines 122-130. -/
def logInfoOfEntry (e : Entry) : LogInfo :=
  { Level := e.Level, Time := e.Time, LoggerName := e.LoggerName,
    Message := e.Message, Stack := e.Stack, File := e.Caller.File,
    Line := e.Caller.Line }

/-- One leveled log call through the installed pipeline: if no logger is
installed nothing happens; otherwise, when the entry's level passes the
enabler, every core of the tee writes the encoded entry once and every
registered hook wrapper is invoked once, in order, with the `LogInfo` built
from the entry; a rejected entry produces no write and no hook call.  Returns
the writers written to and the hook invocations `(hook called, argument)`. -/
def emit (st : LoggerState) (e : Entry) : List Writer × List (Hook × LogInfo) :=
  match st.logger with
  | none => ([], [])
  | some pl =>
    if accept pl.level e.Level then
      (pl.cores, pl.hooks.map fun h => (h, logInfoOfEntry e))
    else
      ([], [])

/-- src/logger.go lines 72-83: the package `init` builds a default pipeline. -/
def defaultInitOptions : Options :=
  { NotStdout := false, Level := DebugLevel, Filename := "", MaxSize := 0,
    MaxBackups := 0, MaxAge := 0, Compress := false }

/-- The package state after `init` (src/logger.go lines 72-83) has run. -/
def initialState : LoggerState :=
  InitLogger defaultInitOptions [] emptyState

/-- The states the package variables can be in: after `init`, and closed under
further `InitLogger` calls. -/
inductive Reachable : LoggerState → Prop where
  | start : Reachable initialState
  | step (opt : Options) (hooks : List Hook) {st : LoggerState} :
      Reachable st → Reachable (InitLogger opt hooks st)

/-- Translation of `GetLogWirter`, src/logger.go lines 110-115: error when the
package logger is nil, otherwise the dereferenced `fileWirtor`.  It reads the
package state and returns it unchanged. -/
def GetLogWirter (st : LoggerState) : Except String (Option Writer) × LoggerState :=
  match st.logger with
  | none => (Except.error "请初始化日志组件后调用", st)
  | some _ => (Except.ok st.fileWirtor, st)

/-- Translation of `GetDefault`, src/logger.go lines 138-146.  The Go struct
literal omits `NotStdout` and `Level`, which therefore take Go zero values:
`false` and `Level(0) = InfoLevel`. -/
def GetDefault (filename : String) : Options :=
  { NotStdout := false, Level := InfoLevel, Filename := filename,
    MaxSize := 100, MaxBackups := 10, MaxAge := 30, Compress := false }

/-- Go's `fmt.Sprintln` on the operands' default string forms: operands are
separated by single spaces and a newline is appended (src/logger.go line 289).
The rendering of each operand to its string form is external. -/
def sprintln : List String → String
  | [] => "\n"
  | [a] => a ++ "\n"
  | a :: b :: r => a ++ " " ++ sprintln (b :: r)

/-- The writers the raw channel targets: `fileWirtor` when non-nil, then
`stdWirtor` when non-nil (src/logger.go lines 287-294). -/
def pureWriters (st : LoggerState) : List Writer :=
  st.fileWirtor.toList ++ st.stdWirtor.toList

/-- Translation of `Pure`, src/logger.go lines 286-295: writes
`fmt.Sprintln(args...)` to `fileWirtor` if non-nil and to `stdWirtor` if
non-nil.  The body contains no level check, no encoder and no hook call, so
the hook-invocation component is empty.  Returns the `(writer, payload)`
writes and the hook invocations. -/
def Pure (st : LoggerState) (args : List String) : List (Writer × String) × List Hook :=
  let fileWrites :=
    match st.fileWirtor with
    | some fw => [(fw, sprintln args)]
    | none => []
  let stdWrites :=
    match st.stdWirtor with
    | some sw => [(sw, sprintln args)]
    | none => []
  (fileWrites ++ stdWrites, [])

/-- Translation of `Puref`, src/logger.go lines 298-307: writes
`fmt.Sprintf(msg, args...) + "\n"` to the same two writers; `formatted` is the
Sprintf result (formatting is external).  No level check, no encoder, no hook
call. -/
def Puref (st : LoggerState) (formatted : String) : List (Writer × String) × List Hook :=
  let fileWrites :=
    match st.fileWirtor with
    | some fw => [(fw, formatted ++ "\n")]
    | none => []
  let stdWrites :=
    match st.stdWirtor with
    | some sw => [(sw, formatted ++ "\n")]
    | none => []
  (fileWrites ++ stdWrites, [])

/-- Modelled from the spec: the Rotation Writer of spec section 4.1 is
implemented by the external lumberjack dependency, whose source is not under
src/; `getLogWriter` only passes the `Options` fields through to it.  State:
accumulated size of the current file and the number of backup files created. -/
structure RotationState where
  size    : Int
  backups : Nat
deriving DecidableEq

/-- Bytes per megabyte (spec 4.1 step 2: max size is configured in MB). -/
def megabyte : Int := 1024 * 1024

/-- Modelled from the spec (section 4.1): a write appends and accumulates
size; if the accumulated size reaches the configured maximum (converted from
MB to bytes) the current file is renamed to a new backup and the size resets
to 0; a max size of 0 disables rotation entirely ("never rotate", spec 4.1
edge cases). -/
def rotWrite (maxSize : Int) (st : RotationState) (n : Int) : RotationState :=
  let sz := st.size + n
  if maxSize ≠ 0 ∧ sz ≥ maxSize * megabyte then
    { size := 0, backups := st.backups + 1 }
  else
    { st with size := sz }

/-- A sequence of writes through the rotation writer. -/
def rotWriteAll (maxSize : Int) (st : RotationState) (ws : List Int) : RotationState :=
  ws.foldl (rotWrite maxSize) st

/-- A sample accepted entry used by the concrete evaluations below. -/
def sampleEntry : Entry :=
  { Level := InfoLevel, Time := 3, LoggerName := "app", Message := "hello",
    Stack := "", Caller := { File := "main.go", Line := 42 } }

/-- The configuration the spec calls "neither sink configured": no stdout, no
file. -/
def noSinkOptions : Options :=
  { NotStdout := true, Level := DebugLevel, Filename := "", MaxSize := 0,
    MaxBackups := 0, MaxAge := 0, Compress := false }

/-- A concrete configuration enabling both sinks. -/
def teeOptions : Options :=
  { NotStdout := false, Level := InfoLevel, Filename := "a.log", MaxSize := 1,
    MaxBackups := 2, MaxAge := 3, Compress := false }

/-- A concrete stdout-only configuration (empty filename). -/
def emptyFileOptions : Options :=
  { NotStdout := false, Level := InfoLevel, Filename := "", MaxSize := 5,
    MaxBackups := 6, MaxAge := 7, Compress := false }

/-- A concrete configuration with rotation disabled (`MaxSize = 0`). -/
def rotOptions : Options :=
  { NotStdout := false, Level := InfoLevel, Filename := "x.log", MaxSize := 0,
    MaxBackups := 0, MaxAge := 0, Compress := false }

/-- A fresh rotation writer state: empty file, no backups. -/
def freshRotation : RotationState :=
  { size := 0, backups := 0 }

theorem initLogger_logger (opt : Options) (hooks : List Hook) (st : LoggerState) :
    (InitLogger opt hooks st).logger =
      some { cores := sinkCores opt, level := opt.Level, hooks := hooksHandler hooks } := by
  unfold InitLogger
  split <;> rfl

theorem initLogger_fileWirtor (opt : Options) (hooks : List Hook) (st : LoggerState) :
    (InitLogger opt hooks st).fileWirtor = some (getLogWriter opt) := by
  unfold InitLogger
  split <;> rfl

theorem sinkCores_ne_nil (opt : Options) : sinkCores opt ≠ [] := by
  unfold sinkCores
  split
  · simp
  · split <;> simp

theorem GetLogWirter_of_some (st : LoggerState) (h : st.logger ≠ none) :
    (GetLogWirter st).1 = Except.ok st.fileWirtor := by
  cases hl : st.logger with
  | none => exact absurd hl h
  | some pl => simp [GetLogWirter, hl]

theorem emit_init (opt : Options) (hooks : List Hook) (st : LoggerState) (e : Entry) :
    emit (InitLogger opt hooks st) e =
      if opt.Level ≤ e.Level then
        (sinkCores opt, (hooksHandler hooks).map fun h => (h, logInfoOfEntry e))
      else ([], []) := by
  simp [emit, initLogger_logger, accept]

theorem intercalate_go_append (s : String) (l : List String) :
    ∀ x y : String,
      String.intercalate.go (x ++ y) s l = x ++ String.intercalate.go y s l := by
  induction l with
  | nil => intro x y; rfl
  | cons a as ih =>
    intro x y
    simp only [String.intercalate.go]
    rw [String.append_assoc x y s, String.append_assoc x (y ++ s) a]
    exact ih x (y ++ s ++ a)

theorem intercalate_cons_cons (s a b : String) (r : List String) :
    String.intercalate s (a :: b :: r) = a ++ s ++ String.intercalate s (b :: r) := by
  show String.intercalate.go a s (b :: r) = a ++ s ++ String.intercalate.go b s r
  simp only [String.intercalate.go]
  have h : a ++ s ++ b = (a ++ s) ++ b := rfl
  rw [h]
  exact intercalate_go_append s r (a ++ s) b

theorem sprintln_eq (args : List String) :
    sprintln args = String.intercalate " " args ++ "\n" := by
  induction args with
  | nil => rfl
  | cons a rest ih =>
    cases rest with
    | nil => rfl
    | cons b r =>
      simp only [sprintln] at ih ⊢
      rw [ih, intercalate_cons_cons, String.append_assoc (a ++ " ")]

theorem rotWriteAll_zero (ws : List Int) :
    ∀ st : RotationState,
      rotWriteAll 0 st ws = { size := st.size + ws.sum, backups := st.backups } := by
  induction ws with
  | nil => intro st; simp [rotWriteAll]
  | cons n ns ih =>
    intro st
    have step : rotWrite 0 st n = { st with size := st.size + n } := by
      simp [rotWrite]
    have : rotWriteAll 0 st (n :: ns) = rotWriteAll 0 (rotWrite 0 st n) ns := rfl
    rw [this, step, ih]
    simp [Int.add_assoc]

/-- C1: fails on the code.  `hooksHandler` is compiled under the `go 1.19`
semantics declared in go.mod, where all `resHook` closures share the loop
variable `hook`; with the two distinct hooks 7 and 8 registered, an accepted
entry invokes hook 8 twice (once per registered wrapper, each receiving the
entry's `LogInfo`) and hook 7 never — not each hook once in registration
order as the claim states. -/
theorem hooksHandler_capture_bug :
    (emit (InitLogger defaultInitOptions [7, 8] emptyState) sampleEntry).2 =
      [(8, logInfoOfEntry sampleEntry), (8, logInfoOfEntry sampleEntry)] ∧
    (emit (InitLogger defaultInitOptions [7, 8] emptyState) sampleEntry).2 ≠
      [(7, logInfoOfEntry sampleEntry), (8, logInfoOfEntry sampleEntry)] := by
  decide

/-- C2: fails on the code.  With `NotStdout = true` and an empty `Filename` —
the configuration the claim says selects no sink and discards every write —
`InitLogger`'s residual `else` branch (src/logger.go lines 96-102) builds a
stdout+file tee, so an accepted entry is written to `os.Stdout` (despite
`NotStdout = true`) and to the lumberjack writer built from the empty
filename, not discarded. -/
theorem noSink_options_still_write :
    (emit (InitLogger noSinkOptions [] emptyState) sampleEntry).1 =
      [Writer.stdout, Writer.file "" 0 0 0 false] := by
  decide

/-- C3 counterexample: after the package `init` (stdout-only configuration,
empty filename) the leveled emission path writes only to stdout, yet `Pure`
and `Puref` also write to the empty-filename file writer stored in
`fileWirtor` by src/logger.go line 87 — a writer the normal emission path
never uses, refuting "they never write to a writer that the normal emission
path does not use". -/
theorem pure_writes_to_nonSink_writer :
    Writer.file "" 0 0 0 false ∈ (Pure initialState ["a"]).1.map Prod.fst ∧
    Writer.file "" 0 0 0 false ∉ (emit initialState sampleEntry).1 ∧
    (emit initialState sampleEntry).1 ≠ [] ∧
    Writer.file "" 0 0 0 false ∈ (Puref initialState "a").1.map Prod.fst := by
  decide

/-- C3 amended: in a configuration that enables both sinks (`NotStdout =
false`, non-empty `Filename`) `Pure` and `Puref` write to exactly the writers
the leveled emission path uses; in configurations without a file sink they
additionally target the file writer that src/logger.go line 87 stores
unconditionally (see the counterexample). -/
theorem pure_matches_sinks_in_tee_config :
    ∀ (opt : Options) (hooks : List Hook) (st : LoggerState)
      (args : List String) (formatted : String),
      opt.NotStdout = false → opt.Filename ≠ "" →
      ∀ w : Writer,
        (w ∈ (Pure (InitLogger opt hooks st) args).1.map Prod.fst ↔ w ∈ sinkCores opt) ∧
        (w ∈ (Puref (InitLogger opt hooks st) formatted).1.map Prod.fst ↔ w ∈ sinkCores opt) := by
  intro opt hooks st args formatted hns hf w
  constructor <;>
    simp [InitLogger, Pure, Puref, sinkCores, hns, hf, or_comm]

/-- Witness for the amended C3 theorem at a concrete both-sinks
configuration. -/
theorem pure_matches_sinks_in_tee_config_witness :
    (Writer.stdout ∈ (Pure (InitLogger teeOptions [] emptyState) ["x"]).1.map Prod.fst ↔
      Writer.stdout ∈ sinkCores teeOptions) ∧
    (Writer.stdout ∈ (Puref (InitLogger teeOptions [] emptyState) "y").1.map Prod.fst ↔
      Writer.stdout ∈ sinkCores teeOptions) :=
  pure_matches_sinks_in_tee_config teeOptions [] emptyState ["x"] "y" rfl (by decide)
    Writer.stdout

/-- C4: with `Options.MaxSize = 0` the rotation writer (modelled from spec
section 4.1; lumberjack's source is not under src/) never rotates: after any
sequence of writes the backup count is unchanged and the file size is the
plain accumulation of all bytes written, however large. -/
theorem maxSize_zero_never_rotates :
    ∀ (opt : Options) (st : RotationState) (ws : List Int),
      opt.MaxSize = 0 →
      (rotWriteAll opt.MaxSize st ws).backups = st.backups ∧
      (rotWriteAll opt.MaxSize st ws).size = st.size + ws.sum := by
  intro opt st ws h
  rw [h, rotWriteAll_zero]
  exact ⟨rfl, rfl⟩

/-- Witness for the C4 theorem: two 500 MB writes with max size 0 create no
backup. -/
theorem maxSize_zero_never_rotates_witness :
    (rotWriteAll rotOptions.MaxSize freshRotation [megabyte * 500, megabyte * 500]).backups =
      freshRotation.backups ∧
    (rotWriteAll rotOptions.MaxSize freshRotation [megabyte * 500, megabyte * 500]).size =
      freshRotation.size + List.sum [megabyte * 500, megabyte * 500] :=
  maxSize_zero_never_rotates rotOptions freshRotation [megabyte * 500, megabyte * 500] rfl

/-- C5: for every package state and argument list, each writer `Pure` targets
receives exactly the arguments' string forms joined by single spaces followed
by a newline — nothing prepended or appended, hence no level name, timestamp
or origin — and the call performs zero hook invocations. -/
theorem pure_payload_and_no_hooks :
    ∀ (st : LoggerState) (args : List String),
      (Pure st args).1 =
        (pureWriters st).map (fun w => (w, String.intercalate " " args ++ "\n")) ∧
      (Pure st args).2 = [] := by
  intro st args
  refine ⟨?_, rfl⟩
  cases hf : st.fileWirtor <;> cases hs : st.stdWirtor <;>
    simp [Pure, pureWriters, hf, hs, sprintln_eq]

/-- C6: the seven level constants are strictly increasing in the order Debug,
Info, Warn, Error, DPanic, Panic, Fatal (`Level` is `Int`-valued, hence
totally ordered), and the pipeline built by any `InitLogger` call forwards an
entry to every sink core and every registered hook wrapper iff the entry's
level is ≥ the configured minimum, producing no write and no hook call
otherwise. -/
theorem level_order_and_filtering :
    (DebugLevel < InfoLevel ∧ InfoLevel < WarnLevel ∧ WarnLevel < ErrorLevel ∧
      ErrorLevel < DPanicLevel ∧ DPanicLevel < PanicLevel ∧ PanicLevel < FatalLevel) ∧
    ∀ (opt : Options) (hooks : List Hook) (st : LoggerState) (e : Entry),
      (emit (InitLogger opt hooks st) e =
        if opt.Level ≤ e.Level then
          (sinkCores opt, (hooksHandler hooks).map fun h => (h, logInfoOfEntry e))
        else ([], [])) ∧
      ((emit (InitLogger opt hooks st) e).1 ≠ [] ↔ opt.Level ≤ e.Level) := by
  refine ⟨by decide, fun opt hooks st e => ⟨emit_init opt hooks st e, ?_⟩⟩
  rw [emit_init]
  split
  · next h => simpa [h] using sinkCores_ne_nil opt
  · next h => simp [h]

/-- Witness for the C6 theorem at the default configuration and the sample
Info-level entry. -/
theorem level_order_and_filtering_witness :
    (emit (InitLogger defaultInitOptions [] emptyState) sampleEntry =
      if (defaultInitOptions).Level ≤ sampleEntry.Level then
        (sinkCores defaultInitOptions,
          (hooksHandler []).map fun h => (h, logInfoOfEntry sampleEntry))
      else ([], [])) ∧
    ((emit (InitLogger defaultInitOptions [] emptyState) sampleEntry).1 ≠ [] ↔
      (defaultInitOptions).Level ≤ sampleEntry.Level) :=
  level_order_and_filtering.2 defaultInitOptions [] emptyState sampleEntry

/-- C7: `GetLogWirter` leaves the package state unchanged; it returns an
error exactly when the package logger is nil (before any pipeline build), the
error being the fixed "please initialize first" message, and otherwise
returns the stored file writer with no error. -/
theorem getLogWirter_error_iff_uninit :
    ∀ st : LoggerState,
      (GetLogWirter st).2 = st ∧
      ((∃ msg, (GetLogWirter st).1 = Except.error msg) ↔ st.logger = none) ∧
      (st.logger ≠ none → (GetLogWirter st).1 = Except.ok st.fileWirtor) := by
  intro st
  cases hl : st.logger <;> simp [GetLogWirter, hl]

/-- Witness for the C7 theorem: at the never-initialized state the call
errors, and at the post-`init` state it returns the stored writer; both calls
leave the state unchanged. -/
theorem getLogWirter_error_iff_uninit_witness :
    (GetLogWirter emptyState).2 = emptyState ∧
    ((∃ msg, (GetLogWirter emptyState).1 = Except.error msg) ↔ emptyState.logger = none) ∧
    (GetLogWirter initialState).1 = Except.ok initialState.fileWirtor :=
  ⟨(getLogWirter_error_iff_uninit emptyState).1,
   (getLogWirter_error_iff_uninit emptyState).2.1,
   (getLogWirter_error_iff_uninit initialState).2.2 (by decide)⟩

/-- C8: `GetDefault` is a pure function of the filename alone — the same
record on every call — and returns exactly filename `f`, max size 100, max
backups 10, max age 30, compress off, with the omitted Go fields at their
zero values `NotStdout = false` and `Level = Level(0) = InfoLevel`. -/
theorem getDefault_fixed_values :
    ∀ f : String,
      GetDefault f =
        { NotStdout := false, Level := InfoLevel, Filename := f, MaxSize := 100,
          MaxBackups := 10, MaxAge := 30, Compress := false } := by
  intro f
  rfl

/-- C9: the package `init` builds the default pipeline — a single stdout
core, minimum level Debug, no hooks — and in every state reachable after
package initialization (any further `InitLogger` calls included) the package
logger is non-nil, so every emission function finds an installed pipeline and
`GetLogWirter`'s error branch never fires. -/
theorem init_builds_pipeline_no_error :
    initialState.logger =
      some { cores := [Writer.stdout], level := DebugLevel, hooks := [] } ∧
    ∀ st : LoggerState, Reachable st →
      st.logger ≠ none ∧ ∃ w, (GetLogWirter st).1 = Except.ok w := by
  refine ⟨by decide, fun st h => ?_⟩
  induction h with
  | start => exact ⟨by decide, initialState.fileWirtor, rfl⟩
  | step opt hooks hst ih =>
    refine ⟨by rw [initLogger_logger]; simp, ?_⟩
    exact ⟨_, GetLogWirter_of_some _ (by rw [initLogger_logger]; simp)⟩

/-- Witness for the C9 theorem at the post-`init` state. -/
theorem init_builds_pipeline_no_error_witness :
    initialState.logger ≠ none ∧ ∃ w, (GetLogWirter initialState).1 = Except.ok w :=
  init_builds_pipeline_no_error.2 initialState Reachable.start

/-- C10: after any `InitLogger` call `GetLogWirter` returns exactly the file
writer `getLogWriter opt` stored by src/logger.go line 87 — never the stdout
writer — and when the configuration's filename is empty (stdout-only sink
set) that result is a file writer with an empty filename rather than the
sink the pipeline writes to. -/
theorem getLogWirter_returns_latest_file_writer :
    ∀ (opt : Options) (hooks : List Hook) (st : LoggerState),
      (GetLogWirter (InitLogger opt hooks st)).1 = Except.ok (some (getLogWriter opt)) ∧
      getLogWriter opt ≠ Writer.stdout ∧
      (opt.Filename = "" →
        getLogWriter opt =
          Writer.file "" opt.MaxSize opt.MaxBackups opt.MaxAge opt.Compress) := by
  intro opt hooks st
  refine ⟨?_, by simp [getLogWriter], fun h => by simp [getLogWriter, h]⟩
  have hne : (InitLogger opt hooks st).logger ≠ none := by
    rw [initLogger_logger]; simp
  rw [GetLogWirter_of_some _ hne, initLogger_fileWirtor]

/-- Witness for the C10 theorem at a stdout-only configuration (empty
filename): the returned writer is the empty-filename file writer. -/
theorem getLogWirter_returns_latest_file_writer_witness :
    (GetLogWirter (InitLogger emptyFileOptions [] emptyState)).1 =
      Except.ok (some (getLogWriter emptyFileOptions)) ∧
    getLogWriter emptyFileOptions = Writer.file "" 5 6 7 false :=
  ⟨(getLogWirter_returns_latest_file_writer emptyFileOptions [] emptyState).1,
   (getLogWirter_returns_latest_file_writer emptyFileOptions [] emptyState).2.2 rfl⟩

end Logger
